import Mathlib

/-!
Verification of the project/container lifecycle, task registry and SSE stream
of the sandbox-orchestration backend.  Definitions are shallow embeddings of:
  backend/app/services/container_service.py
  backend/app/services/project_service.py
  agent/server/app.py, agent/server/handlers.py, agent/server/state.py
String primitives are implemented structurally over `List Char` so that every
definition evaluates by kernel reduction.
-/

namespace Spec2Proof

/-- Contiguous-sublist test on character lists (Python's `pat in s`). -/
def isInfixB (pat : List Char) : List Char → Bool
  | [] => pat.isEmpty
  | c :: tl => pat.isPrefixOf (c :: tl) || isInfixB pat tl

/-- Python's `pat in s` substring test. -/
def strContains (s pat : String) : Bool :=
  isInfixB pat.data s.data

/-- Python's `s.startswith(pre)`. -/
def startsWithB (s pre : String) : Bool :=
  pre.data.isPrefixOf s.data

/-- Python's `s.endswith(suf)`. -/
def endsWithB (s suf : String) : Bool :=
  suf.data.isSuffixOf s.data

/-- Python's `s.lower()`, as a character list (ASCII is all the callers use). -/
def lowerChars (s : String) : List Char :=
  s.data.map Char.toLower

/-- Python's `s.split(sep)` for a one-character separator. -/
def splitOnChar (sep : Char) : List Char → List (List Char)
  | [] => [[]]
  | c :: tl =>
    let rest := splitOnChar sep tl
    if c == sep then [] :: rest
    else
      match rest with
      | h :: t => (c :: h) :: t
      | [] => [[c]]

/-- The backquote character (code 96). -/
def backtickChar : Char := Char.ofNat 96

/-- Left curly brace (code 123). -/
def lbraceChar : Char := Char.ofNat 123

/-- Right curly brace (code 125). -/
def rbraceChar : Char := Char.ofNat 125

/-- Left square bracket (code 91). -/
def lbrackChar : Char := Char.ofNat 91

/-- Right square bracket (code 93). -/
def rbrackChar : Char := Char.ofNat 93

/-- Single quote (code 39). -/
def squoteChar : Char := Char.ofNat 39

/-- Double quote (code 34). -/
def dquoteChar : Char := Char.ofNat 34

/-- The `dangerous_chars` list of `_sanitize_git_url`
(container_service.py line 33). -/
def dangerousShellChars : List Char :=
  [';', '&', '|', '$', backtickChar, '(', ')', lbraceChar, rbraceChar,
   lbrackChar, rbrackChar, '<', '>', '!', '\n', '\r']

/-- Character class `[a-zA-Z0-9\-_.@:/]` of the git-URL regex. -/
def urlSafeChar (c : Char) : Bool :=
  c.isAlpha || c.isDigit || c == '-' || c == '_' || c == '.' || c == '@' ||
    c == ':' || c == '/'

/-- Python `re.match` of a pattern `CLASS+$` against the suffix `cs`:
the class must consume one or more characters and then the `$` anchor must
hold.  In Python (no `re.MULTILINE`), `$` matches at the end of the string
or just before a single trailing newline, so `"main\n"` matches
`^[a-z]+$`. -/
def pyClassPlusDollar (cls : Char → Bool) (cs : List Char) : Bool :=
  (!cs.isEmpty && cs.all cls) ||
  (match cs.getLast? with
   | some c => c == '\n' && !cs.dropLast.isEmpty && cs.dropLast.all cls
   | none => false)

/-- The regex `^(https?://|git@)[a-zA-Z0-9\-_.@:/]+$` of `_sanitize_git_url`
(the three prefix alternatives are mutually exclusive on any string). -/
def matchesGitUrlPattern (url : String) : Bool :=
  if startsWithB url "https://" then pyClassPlusDollar urlSafeChar (url.data.drop 8)
  else if startsWithB url "http://" then pyClassPlusDollar urlSafeChar (url.data.drop 7)
  else if startsWithB url "git@" then pyClassPlusDollar urlSafeChar (url.data.drop 4)
  else false

/-- `_sanitize_git_url` (container_service.py lines 15-38): empty check,
regex check, then an explicit dangerous-character scan. -/
def sanitizeGitUrl (url : String) : Except String String :=
  if url == "" then .error "Git URL cannot be empty"
  else if !matchesGitUrlPattern url then .error "invalid Git URL format"
  else if dangerousShellChars.any (fun c => url.data.contains c) then
    .error "Git URL contains a disallowed character"
  else .ok url

/-- Character class `[a-zA-Z0-9\-_./]` of the branch-name regex. -/
def branchSafeChar (c : Char) : Bool :=
  c.isAlpha || c.isDigit || c == '-' || c == '_' || c == '.' || c == '/'

/-- `_sanitize_branch_name` (container_service.py lines 41-64): empty branch
defaults to "main"; otherwise regex check, then the consecutive-dot/slash
and leading/trailing-dot/slash checks.  There is no separate
dangerous-character scan for branches. -/
def sanitizeBranchName (branch : String) : Except String String :=
  if branch == "" then .ok "main"
  else if !pyClassPlusDollar branchSafeChar branch.data then
    .error "invalid branch name"
  else if strContains branch ".." || strContains branch "//" then
    .error "invalid branch name"
  else if startsWithB branch "." || endsWithB branch "." ||
      startsWithB branch "/" || endsWithB branch "/" then
    .error "invalid branch name"
  else .ok branch

/-- The `traversal_patterns` list of `_sanitize_path`. -/
def traversalPatterns : List String := ["..", "%2e%2e", "%252e%252e", "%2f", "%252f"]

/-- The `dangerous_chars` list of `_sanitize_path` (no square brackets, but
single and double quotes). -/
def pathDangerousChars : List Char :=
  [';', '&', '|', '$', backtickChar, '(', ')', lbraceChar, rbraceChar,
   '<', '>', '!', '\n', '\r', squoteChar, dquoteChar]

/-- Component loop of Python `posixpath.normpath`; `acc` holds `new_comps`
in reverse order. -/
def normpathComps (initialSlashes : Nat) :
    List (List Char) → List (List Char) → List (List Char)
  | [], acc => acc.reverse
  | comp :: rest, acc =>
    if comp.isEmpty || comp == ['.'] then normpathComps initialSlashes rest acc
    else if comp != ['.', '.'] || (initialSlashes == 0 && acc.isEmpty) ||
        (match acc with | c :: _ => c == ['.', '.'] | [] => false) then
      normpathComps initialSlashes rest (comp :: acc)
    else
      match acc with
      | _ :: tl => normpathComps initialSlashes rest tl
      | [] => normpathComps initialSlashes rest acc

/-- Python `os.path.normpath` for POSIX paths, as used by `_sanitize_path`. -/
def normpath (path : String) : String :=
  if path == "" then "."
  else
    let initialSlashes : Nat :=
      if startsWithB path "/" then
        (if startsWithB path "//" && !startsWithB path "///" then 2 else 1)
      else 0
    let comps := splitOnChar '/' path.data
    let newComps := normpathComps initialSlashes comps []
    let joined := List.intercalate ['/'] newComps
    let result := String.mk (List.replicate initialSlashes '/' ++ joined)
    if result == "" then "." else result

/-- Python `os.path.join(basePath, rel)` for the one shape `_sanitize_path`
uses it with (`rel` relative). -/
def posixJoin (basePath rel : String) : String :=
  if endsWithB basePath "/" then basePath ++ rel else basePath ++ "/" ++ rel

/-- `_sanitize_path` (container_service.py lines 67-108): empty check,
traversal-pattern scan on the lower-cased path, dangerous-character scan,
normalization, base-path prefix check. -/
def sanitizePath (path : String) (basePath : String) : Except String String :=
  if path == "" then .error "path cannot be empty"
  else if traversalPatterns.any (fun pat => isInfixB pat.data (lowerChars path)) then
    .error "path must not contain dotdot"
  else if pathDangerousChars.any (fun c => path.data.contains c) then
    .error "path contains a disallowed character"
  else
    let normalized := normpath path
    let fullPath :=
      if !startsWithB normalized "/" then normpath (posixJoin basePath normalized)
      else normalized
    if !startsWithB fullPath basePath then .error "path must stay under the base path"
    else .ok fullPath

/-- Outcome of one `subprocess.run` of a docker command: success, or a
`CalledProcessError` carrying stderr. -/
inductive DockerOutcome where
  | success (stdout : String)
  | failure (stderr : String)
deriving DecidableEq

/-- `ContainerService.stop_container` (lines 243-258): a failure whose stderr
mentions "No such container" is only logged as a warning; any other failure
re-raises. -/
def stopContainer (outcome : DockerOutcome) (timeout : Nat) : Except String Unit :=
  match outcome with
  | .success _ => .ok ()
  | .failure stderr =>
    if strContains stderr "No such container" then .ok ()
    else .error ("stop container failed after " ++ toString timeout ++ "s: " ++ stderr)

/-- `ContainerService.remove_container` (lines 260-279): same benign-absence
handling as `stop_container`; `force` only changes the docker command line. -/
def removeContainer (outcome : DockerOutcome) (force : Bool) : Except String Unit :=
  match outcome with
  | .success _ => .ok ()
  | .failure stderr =>
    if strContains stderr "No such container" then .ok ()
    else .error ("remove container failed (force=" ++ toString force ++ "): " ++ stderr)

/-- Commands `ContainerService` places on the subprocess boundary. -/
inductive ContainerCmd where
  | cleanupDir (dir : String)
  | gitClone (branch url dir : String)
  | statProbe (path : String)
  | catFile (path : String)
deriving DecidableEq

/-- `ContainerService.clone_repository` (lines 329-406) up to the subprocess
boundary: both sanitizers run first; only when both accept are the cleanup
and clone commands constructed and invoked. -/
def cloneRepository (repoUrl branch targetDir : String) :
    Except String (List ContainerCmd) :=
  match sanitizeGitUrl repoUrl with
  | .error e => .error e
  | .ok safeUrl =>
    match sanitizeBranchName branch with
    | .error e => .error e
    | .ok safeBranch =>
      .ok [ContainerCmd.cleanupDir targetDir,
           ContainerCmd.gitClone safeBranch safeUrl targetDir]

/-- Errors `read_file` can raise. -/
inductive ReadFileError where
  | valueError (msg : String)
  | fileNotFound (msg : String)
deriving DecidableEq

/-- Successful `read_file` result: path, content, size. -/
structure ReadFileOk where
  path : String
  content : String
  size : Nat
deriving DecidableEq

/-- What the container reports for one file: the size printed by the stat
probe (`stat -c %s .. || echo 0` prints 0 when the file is absent), and the
exit code / output of the subsequent `cat`. -/
structure ContainerFileView where
  statSize : Nat
  catExitCode : Int
  catStdout : String
  catStderr : String
deriving DecidableEq

/-- `ContainerService.read_file` (lines 580-644): sanitize the path, probe
the size, reject size 0 as FileNotFoundError and oversize as ValueError,
and only then run the content-reading `cat`.  The second component records
every container command that was executed. -/
def readFile (fs : ContainerFileView) (filePath : String) (maxSize : Nat) :
    Except ReadFileError ReadFileOk × List ContainerCmd :=
  match sanitizePath filePath "/workspace" with
  | .error e => (.error (.valueError e), [])
  | .ok fullPath =>
    if fs.statSize == 0 then
      (.error (.fileNotFound ("file not found or empty: " ++ fullPath)),
       [ContainerCmd.statProbe fullPath])
    else if fs.statSize > maxSize then
      (.error (.valueError "file too large"),
       [ContainerCmd.statProbe fullPath])
    else if fs.catExitCode != 0 then
      (.error (.fileNotFound ("cannot read file: " ++ fs.catStderr)),
       [ContainerCmd.statProbe fullPath, ContainerCmd.catFile fullPath])
    else
      (.ok ⟨filePath, fs.catStdout, fs.statSize⟩,
       [ContainerCmd.statProbe fullPath, ContainerCmd.catFile fullPath])

/-! Project orchestrator (backend/app/services/project_service.py and
backend/app/models/project.py). -/

/-- `ProjectStatus` enum (models/project.py lines 15-24). -/
inductive ProjStatus where
  | created
  | provisioning
  | ready
  | running
  | stopped
  | failed
  | deleted
deriving DecidableEq

/-- The fields of a persisted `Project` record that the lifecycle state
machine reads and writes. -/
structure ProjectRec where
  status : ProjStatus
  container_id : Option String
  last_error : Option String
deriving DecidableEq

/-- `ProjectService._update_project_status` (lines 358-381): always writes
`status`; writes `container_id` and `last_error` only when the argument is
not None (so passing None leaves the stored field untouched). -/
def updateProjectStatus (r : ProjectRec) (status : ProjStatus)
    (container_id : Option String) (last_error : Option String) : ProjectRec :=
  { status := status
    container_id := match container_id with
      | some c => some c
      | none => r.container_id
    last_error := match last_error with
      | some e => some e
      | none => r.last_error }

/-- State of one project's persisted record: absent (never created, or
deleted) or present. -/
inductive PState where
  | absent
  | present (r : ProjectRec)

/-- Persisted project states reachable through the orchestrator's
operations.  Each constructor is one database write the corresponding
operation performs, under the guard the code checks before it:
* `create`: `create_project` inserts status CREATED, no container.
* `provisionStart`: `provision_project` writes PROVISIONING (guard: status
  in CREATED/STOPPED/FAILED); it passes `container_id=None`, so a stale
  container id from an earlier provision is kept.
* `provisionReady` / `provisionFail`: the success and exception paths of the
  same call, issued while the record is in PROVISIONING.
* `stopOk` / `stopFail`: `stop_project` (guard: a container id exists; it
  raises before writing otherwise).
* `deleteProject`: `delete_project` removes the record. -/
inductive Reach : PState → Prop
  | init : Reach .absent
  | create : Reach .absent → Reach (.present ⟨.created, none, none⟩)
  | provisionStart (r : ProjectRec) : Reach (.present r) →
      (r.status = .created ∨ r.status = .stopped ∨ r.status = .failed) →
      Reach (.present (updateProjectStatus r .provisioning none none))
  | provisionReady (r : ProjectRec) (cid : String) : Reach (.present r) →
      r.status = .provisioning →
      Reach (.present (updateProjectStatus r .ready (some cid) none))
  | provisionFail (r : ProjectRec) (msg : String) : Reach (.present r) →
      r.status = .provisioning →
      Reach (.present (updateProjectStatus r .failed none (some msg)))
  | stopOk (r : ProjectRec) : Reach (.present r) →
      r.container_id ≠ none →
      Reach (.present (updateProjectStatus r .stopped none none))
  | stopFail (r : ProjectRec) (msg : String) : Reach (.present r) →
      r.container_id ≠ none →
      Reach (.present (updateProjectStatus r .failed none (some msg)))
  | deleteProject (r : ProjectRec) : Reach (.present r) → Reach .absent

/-- Which external step of `provision_project` raises, if any: host
directory preparation, container create, container start, or the
type-dependent setup (clone for REFACTOR, workspace scaffold for SANDBOX).
`createContainer` carries the new container id on success. -/
structure ProvisionEnv where
  prepareDirs : Option String
  createContainer : Except String String
  startContainer : Option String
  setupStep : Option String

/-- Result of one `provision_project` call: what the caller sees (the
returned record, or the re-raised exception), the persisted record after
the call, and the container ids it removed best-effort. -/
structure ProvisionTrace where
  outcome : Except String ProjectRec
  db : ProjectRec
  removed : List String

/-- Exception path of `provision_project` (lines 286-302): best-effort
remove the just-created container, persist FAILED with `last_error`, and
re-raise. -/
def provisionFailPath (r1 : ProjectRec) (createdCid : Option String)
    (msg : String) (removed0 : List String) : ProvisionTrace :=
  let r2 := updateProjectStatus r1 .failed none (some msg)
  { outcome := .error msg
    db := r2
    removed := removed0 ++ (match createdCid with | some c => [c] | none => []) }

/-- `ProjectService.provision_project` (lines 210-302) for a project that
exists.  Guard; best-effort cleanup of a stale container; PROVISIONING
write; then the external steps, any failure of which takes the exception
path; on success the READY write with the new container id. -/
def provisionProject (r : ProjectRec) (env : ProvisionEnv) : ProvisionTrace :=
  if ¬(r.status = .created ∨ r.status = .stopped ∨ r.status = .failed) then
    { outcome := .error "project status must be CREATED, STOPPED or FAILED"
      db := r, removed := [] }
  else
    let removed0 : List String :=
      if r.status = .stopped ∨ r.status = .failed then
        (match r.container_id with | some c => [c] | none => [])
      else []
    let r1 := updateProjectStatus r .provisioning none none
    match env.prepareDirs with
    | some msg => provisionFailPath r1 none msg removed0
    | none =>
      match env.createContainer with
      | .error msg => provisionFailPath r1 none msg removed0
      | .ok cid =>
        match env.startContainer with
        | some msg => provisionFailPath r1 (some cid) msg removed0
        | none =>
          match env.setupStep with
          | some msg => provisionFailPath r1 (some cid) msg removed0
          | none =>
            let r2 := updateProjectStatus r1 .ready (some cid) none
            { outcome := .ok r2, db := r2, removed := removed0 }

/-- Shape of `get_container_status`'s successful inspect result. -/
structure ContainerStatus where
  id : String
  name : String
  status : String
  image : String
deriving DecidableEq

/-- The `docker_status` field `get_project_with_docker_status` attaches:
`None` when the project has no container id, the live inspect data when the
runtime knows the container, or the drift marker
`id / status="not_found" / inconsistent=true` dict. -/
inductive DockerStatusField where
  | noContainer
  | found (s : ContainerStatus)
  | notFound (id : String) (status : String) (inconsistent : Bool)
deriving DecidableEq

/-- `ProjectService.get_project_with_docker_status` (lines 59-89) for a
given persisted record (`none` when the project does not exist) and a
given runtime observation (`none` when `docker inspect` found no
container).  The second component lists the database writes the call
performs: there are none, the call only reads. -/
def getProjectWithDockerStatus (p : Option ProjectRec)
    (observed : Option ContainerStatus) :
    Option (ProjectRec × DockerStatusField) × List ProjectRec :=
  match p with
  | none => (none, [])
  | some proj =>
    match proj.container_id with
    | none => (some (proj, .noContainer), [])
    | some cid =>
      match observed with
      | some ds => (some (proj, .found ds), [])
      | none =>
        (some (proj, .notFound (String.mk (cid.data.take 12)) "not_found" true), [])

/-! Task registry and background execution (agent/server/schemas.py,
agent/server/state.py, agent/server/handlers.py, agent/server/app.py). -/

/-- `TaskStatus` (schemas.py lines 7-13); the wire values are lowercase. -/
inductive TStatus where
  | pending
  | running
  | success
  | failed
  | stopped
deriving DecidableEq

/-- Wire string of a task status, exactly the constants of `TaskStatus`. -/
def statusWire : TStatus → String
  | .pending => "pending"
  | .running => "running"
  | .success => "success"
  | .failed => "failed"
  | .stopped => "stopped"

/-- The slice of `state.tasks[task_id]` and `state.stop_flags[task_id]` that
`stop_task` and `execute_agent` touch for a single task.  `stopFlag = none`
models the key being absent from `state.stop_flags`. -/
structure TaskState where
  status : TStatus
  errorMessage : Option String
  stopFlag : Option Bool
deriving DecidableEq

/-- `stop_task` (app.py lines 228-253) for a task that exists: accept only
PENDING or RUNNING (else HTTP 400) and set the task's stop flag. -/
def stopTask (t : TaskState) : Except Nat TaskState :=
  if t.status = .pending ∨ t.status = .running then
    .ok { t with stopFlag := some true }
  else .error 400

/-- How the `agent.run(...)` call of `execute_agent` ends when no new stop
request arrives during the run: normal completion, a KeyboardInterrupt
raised by the stop-checking event callback, or another exception. -/
inductive AgentRunOutcome where
  | completes
  | interrupted
  | raises (msg : String)
deriving DecidableEq

/-- Environment of one `execute_agent` run: the `POSTGRES_URL` environment
variable and how the agent run ends. -/
structure ExecEnv where
  postgresUrl : Option String
  agentRun : AgentRunOutcome

/-- `execute_agent` (handlers.py lines 26-159) for one task, assuming no
concurrent stop request arrives while it runs.  Returns the final task
state and, second, the list of status values assigned to
`state.tasks[task_id]["status"]`, in order.  Faithful to the source order:
it first assigns `state.stop_flags[task_id] = False` (line 37, overwriting
any flag set while the task was PENDING), then sets RUNNING (line 40), and
only then checks the stop flag; the `finally` block deletes the flag. -/
def executeAgent (env : ExecEnv) (t : TaskState) : TaskState × List TStatus :=
  let t1 : TaskState := { t with stopFlag := some false }
  let t2 : TaskState := { t1 with status := .running }
  if t2.stopFlag.getD false then
    ({ t2 with status := .stopped, stopFlag := none }, [.running, .stopped])
  else
    match env.postgresUrl with
    | none =>
      ({ t2 with
          status := .failed
          errorMessage := some "POSTGRES_URL environment variable is not set. PostgreSQL persistence is required."
          stopFlag := none }, [.running, .failed])
    | some _ =>
      if t2.stopFlag.getD false then
        ({ t2 with status := .stopped, stopFlag := none }, [.running, .stopped])
      else
        match env.agentRun with
        | .completes =>
          if t2.stopFlag.getD false then
            ({ t2 with status := .stopped, stopFlag := none }, [.running, .stopped])
          else
            ({ t2 with status := .success, stopFlag := none }, [.running, .success])
        | .interrupted =>
          ({ t2 with
              status := .stopped
              errorMessage := some "Task stopped by user"
              stopFlag := none }, [.running, .stopped])
        | .raises msg =>
          ({ t2 with
              status := .failed
              errorMessage := some ("Agent execution failed: " ++ msg)
              stopFlag := none }, [.running, .failed])

/-- One entry of `state.tasks`: the fields `resume_task` reads and writes.
`thread_id`, `spec`, `init_prompt` model `old_task.get(...)` with their
absence as `none`. -/
structure TaskRecord where
  task_id : String
  thread_id : Option String
  status : TStatus
  spec : Option String
  init_prompt : Option String
  resumed_from : Option String
deriving DecidableEq

/-- `resume_task` (app.py lines 256-307) for `state.tasks` as an association
list (lookup finds the most recent binding).  404 when the task id is
unknown; 400 unless the status is STOPPED or FAILED; otherwise a new task
record keyed by the fresh `newId` is added, bound to the old task's
thread id (default `refactor-<task_id>`) and spec (falling back to
`init_prompt`, then `""`), in status PENDING. -/
def resumeTask (tasks : List (String × TaskRecord)) (taskId newId : String) :
    Except Nat (List (String × TaskRecord)) :=
  match tasks.lookup taskId with
  | none => .error 404
  | some old =>
    if old.status = .stopped ∨ old.status = .failed then
      let spec := old.spec.getD (old.init_prompt.getD "")
      let threadId := old.thread_id.getD ("refactor-" ++ taskId)
      let newTask : TaskRecord :=
        { task_id := newId
          thread_id := some threadId
          status := .pending
          spec := some spec
          init_prompt := none
          resumed_from := some taskId }
      .ok ((newId, newTask) :: tasks)
    else .error 400

/-! SSE stream relay (`stream_task_logs`, app.py lines 154-225). -/

/-- One `TaskLog` entry. -/
structure SLogEntry where
  timestamp : String
  message : String
deriving DecidableEq

/-- Snapshot of `state.tasks[task_id]` and `state.task_logs[task_id]` as the
generator observes them on one polling iteration (`logs` is the cumulative
append-only list). -/
structure TaskSnap where
  status : TStatus
  finished_at : Option String
  error_message : Option String
  logs : List SLogEntry
deriving DecidableEq

/-- Events the generator yields.  `structuredEvt` is a log line of the
`\x5bevent_type\x5d json` convention whose payload parsed; `logEvt` is a
plain (or unparseable) log line wrapped as a `log` event; `statusEvt` is the
final status event with payload status/finished_at/error_message. -/
inductive SSEEvent where
  | structuredEvt (eventType : String) (data : String)
  | logEvt (timestamp : String) (message : String)
  | statusEvt (status : String) (finished_at : Option String)
      (error_message : Option String)
deriving DecidableEq

/-- Stand-in for Python's `json.loads` / `json.dumps` round trip: `valid`
says whether `loads` succeeds, `reser` is `dumps(loads(s))`. -/
structure JsonModel where
  valid : String → Bool
  reser : String → String

/-- Conversion of one log entry into one SSE event (app.py lines 174-202):
a message starting with a bracket that also contains a closing bracket is
parsed as `event_type` plus JSON payload; a parse failure, and every other
message, yields a plain `log` event. -/
def logEventOf (jm : JsonModel) (e : SLogEntry) : SSEEvent :=
  let cs := e.message.data
  if lbrackChar ∈ cs.take 1 ∧ rbrackChar ∈ cs then
    let closeBracket := (cs.takeWhile (fun c => c != rbrackChar)).length
    let eventType := String.mk ((cs.drop 1).take (closeBracket - 1))
    let jsonData := String.mk (cs.drop (closeBracket + 2))
    if jm.valid jsonData then .structuredEvt eventType (jm.reser jsonData)
    else .logEvt e.timestamp e.message
  else .logEvt e.timestamp e.message

/-- The `finished_statuses` list (app.py lines 207-211). -/
def isTerminal : TStatus → Bool
  | .success => true
  | .failed => true
  | .stopped => true
  | .pending => false
  | .running => false

/-- The generator loop of `stream_task_logs`, run against a list of
successive polls (one `TaskSnap` per iteration of the `while True` loop;
the task record itself is never deleted by the server, so every poll finds
it).  Per iteration: emit the log entries past the cursor, then, if the
status is terminal, emit the single `status` event and close.  Returns the
emitted events and whether the stream was closed; when the polls are
exhausted without a terminal status the stream is still open (`false`). -/
def streamGen (jm : JsonModel) : List TaskSnap → Nat → List SSEEvent × Bool
  | [], _ => ([], false)
  | snap :: rest, lastIndex =>
    let logEvents := (snap.logs.drop lastIndex).map (logEventOf jm)
    if isTerminal snap.status then
      (logEvents ++
        [SSEEvent.statusEvt (String.mk (lowerChars (statusWire snap.status)))
          snap.finished_at snap.error_message], true)
    else
      let next := streamGen jm rest snap.logs.length
      (logEvents ++ next.1, next.2)

/-- Recognizer for the final status event. -/
def isStatusEvt : SSEEvent → Bool
  | .statusEvt _ _ _ => true
  | _ => false

/-- Number of final status events in an event list. -/
def statusCount (evs : List SSEEvent) : Nat :=
  (evs.filter isStatusEvt).length

deriving instance DecidableEq for Except

/-! Theorems. -/

/-- C7: for a container the runtime reports as absent ("No such container"
in stderr), both `stop_container` and `remove_container` return normally,
whatever the timeout or force flag — already-absent containers are a benign
no-op on cleanup paths. -/
theorem absent_container_stop_remove_is_noop (stderr : String) (timeout : Nat)
    (force : Bool) (h : strContains stderr "No such container" = true) :
    stopContainer (.failure stderr) timeout = .ok () ∧
    removeContainer (.failure stderr) force = .ok () := by
  constructor <;> simp [stopContainer, removeContainer, h]

/-- C7 witness at a concrete docker error message. -/
theorem absent_container_stop_remove_is_noop_witness :
    strContains "Error response from daemon: No such container: abc123" "No such container" = true ∧
    (stopContainer (.failure "Error response from daemon: No such container: abc123") 10 = .ok () ∧
     removeContainer (.failure "Error response from daemon: No such container: abc123") true = .ok ()) :=
  ⟨by decide,
   absent_container_stop_remove_is_noop "Error response from daemon: No such container: abc123"
     10 true (by decide)⟩

/-- The three traversal patterns the claim is about (the sanitizer's list
additionally holds the encoded-slash patterns). -/
def traversalCorePatterns : List String := ["..", "%2e%2e", "%252e%252e"]

/-- C6: a path containing `..`, `%2e%2e` or `%252e%252e` in any letter
casing (its lower-casing contains the pattern) is rejected by
`_sanitize_path` with a ValueError, so `read_file` raises before any
container command is executed. -/
theorem traversal_path_rejected (path pat : String)
    (hpat : pat ∈ traversalCorePatterns)
    (hin : isInfixB pat.data (lowerChars path) = true) :
    (∃ e, sanitizePath path "/workspace" = .error e) ∧
    ∀ fs maxSize, (∃ e, (readFile fs path maxSize).1 = .error (.valueError e)) ∧
      (readFile fs path maxSize).2 = [] := by
  have hne : path ≠ "" := by
    rintro rfl
    fin_cases hpat <;> simp [lowerChars, isInfixB, List.isPrefixOf] at hin
  have hpat' : pat ∈ traversalPatterns := by
    fin_cases hpat <;> decide
  have hany : traversalPatterns.any (fun p => isInfixB p.data (lowerChars path)) = true := by
    rw [List.any_eq_true]
    exact ⟨pat, hpat', hin⟩
  have hsan : sanitizePath path "/workspace" = .error "path must not contain dotdot" := by
    unfold sanitizePath
    rw [if_neg (by simpa using hne), if_pos hany]
  refine ⟨⟨_, hsan⟩, fun fs maxSize => ?_⟩
  unfold readFile
  rw [hsan]
  exact ⟨⟨_, rfl⟩, rfl⟩

/-- C6 witness at a mixed-case double-encoded traversal path. -/
theorem traversal_path_rejected_witness :
    ("%2e%2e" ∈ traversalCorePatterns ∧
      isInfixB "%2e%2e".data (lowerChars "a/%2E%2e/secret") = true) ∧
    ((∃ e, sanitizePath "a/%2E%2e/secret" "/workspace" = .error e) ∧
     ∀ fs maxSize, (∃ e, (readFile fs "a/%2E%2e/secret" maxSize).1 = .error (.valueError e)) ∧
       (readFile fs "a/%2E%2e/secret" maxSize).2 = []) :=
  ⟨⟨by decide, by decide⟩,
   traversal_path_rejected "a/%2E%2e/secret" "%2e%2e" (by decide) (by decide)⟩

/-- C10: once the sanitizer accepts the path, a stat probe reporting 0
bytes makes `read_file` raise FileNotFoundError and never run the content
read; the `cat` command runs exactly when the probed size is strictly
positive and at most `max_size`. -/
theorem readFile_zero_probe_rejected (fs : ContainerFileView)
    (filePath fullPath : String) (maxSize : Nat)
    (hok : sanitizePath filePath "/workspace" = .ok fullPath) :
    (fs.statSize = 0 →
      (∃ m, (readFile fs filePath maxSize).1 = .error (.fileNotFound m)) ∧
      ∀ p, ContainerCmd.catFile p ∉ (readFile fs filePath maxSize).2) ∧
    (∀ p, ContainerCmd.catFile p ∈ (readFile fs filePath maxSize).2 ↔
      (p = fullPath ∧ 0 < fs.statSize ∧ fs.statSize ≤ maxSize)) := by
  unfold readFile
  rw [hok]
  constructor
  · intro h0
    simp [h0]
  · intro p
    by_cases h0 : fs.statSize = 0
    · simp [h0]
    · by_cases hbig : fs.statSize > maxSize
      · simp [h0, hbig]
        try omega
      · by_cases hcat : fs.catExitCode ≠ 0 <;>
          simp [h0, hbig, hcat] <;> try omega

/-- C10 witness: an empty file under an accepted path. -/
theorem readFile_zero_probe_rejected_witness :
    sanitizePath "src/a.txt" "/workspace" = .ok "/workspace/src/a.txt" ∧
    (((⟨0, 0, "", ""⟩ : ContainerFileView).statSize = 0 →
      (∃ m, (readFile ⟨0, 0, "", ""⟩ "src/a.txt" 1048576).1 = .error (.fileNotFound m)) ∧
      ∀ p, ContainerCmd.catFile p ∉ (readFile ⟨0, 0, "", ""⟩ "src/a.txt" 1048576).2) ∧
    (∀ p, ContainerCmd.catFile p ∈ (readFile ⟨0, 0, "", ""⟩ "src/a.txt" 1048576).2 ↔
      (p = "/workspace/src/a.txt" ∧ 0 < (⟨0, 0, "", ""⟩ : ContainerFileView).statSize ∧
        (⟨0, 0, "", ""⟩ : ContainerFileView).statSize ≤ 1048576))) :=
  ⟨by decide,
   readFile_zero_probe_rejected ⟨0, 0, "", ""⟩ "src/a.txt" "/workspace/src/a.txt" 1048576 (by decide)⟩

/-- C8: when the persisted project carries a container id and the runtime
observation finds no matching container, the call returns the drift marker
(12-character id prefix, status "not_found", inconsistent true) as data —
it does not raise — and performs no database write, so the persisted record
is returned unchanged. -/
theorem drift_reported_as_data (proj : ProjectRec) (cid : String)
    (hc : proj.container_id = some cid) :
    getProjectWithDockerStatus (some proj) none =
      (some (proj, .notFound (String.mk (cid.data.take 12)) "not_found" true), []) := by
  simp [getProjectWithDockerStatus, hc]

/-- C8 witness at a concrete READY project with a dangling container id. -/
theorem drift_reported_as_data_witness :
    (⟨.ready, some "abcdef0123456789", none⟩ : ProjectRec).container_id = some "abcdef0123456789" ∧
    getProjectWithDockerStatus (some ⟨.ready, some "abcdef0123456789", none⟩) none =
      (some (⟨.ready, some "abcdef0123456789", none⟩,
        .notFound (String.mk ("abcdef0123456789".data.take 12)) "not_found" true), []) :=
  ⟨rfl, drift_reported_as_data ⟨.ready, some "abcdef0123456789", none⟩ "abcdef0123456789" rfl⟩

/-- C2 (code-bug exhibit): a stop request accepted while the task is
PENDING sets the stop flag, but `execute_agent` then overwrites the flag
with False (handlers.py line 37) and assigns RUNNING (line 40) before its
first stop check, so the stop is lost: the status trajectory is RUNNING
then SUCCESS — never the claimed direct PENDING→STOPPED transition. -/
theorem stop_while_pending_is_lost :
    stopTask ⟨.pending, none, none⟩ = .ok ⟨.pending, none, some true⟩ ∧
    executeAgent ⟨some "postgres-url", .completes⟩ ⟨.pending, none, some true⟩ =
      (⟨.success, none, none⟩, [.running, .success]) := by
  constructor <;> rfl

/-- C9: for a task present in the registry, `resume_task` rejects with
HTTP 400 whenever the status is outside STOPPED/FAILED; when it accepts,
the new registry binds a fresh task id (distinct from the original) to a
PENDING record carrying the original thread id and spec, and the original
task's record is unchanged. -/
theorem resume_task_contract (tasks : List (String × TaskRecord))
    (taskId newId : String) (old : TaskRecord) (tid s : String)
    (hfound : tasks.lookup taskId = some old)
    (hthread : old.thread_id = some tid)
    (hspec : old.spec = some s)
    (hfresh : newId ≠ taskId) :
    (¬(old.status = .stopped ∨ old.status = .failed) →
      resumeTask tasks taskId newId = .error 400) ∧
    ((old.status = .stopped ∨ old.status = .failed) →
      ∃ m, resumeTask tasks taskId newId = .ok m ∧
        m.lookup newId = some ⟨newId, some tid, .pending, some s, none, some taskId⟩ ∧
        m.lookup taskId = some old) := by
  constructor
  · intro hno
    unfold resumeTask
    rw [hfound]
    simp [hno]
  · intro hyes
    have hne : taskId ≠ newId := Ne.symm hfresh
    have hres : resumeTask tasks taskId newId =
        .ok ((newId, ⟨newId, some tid, .pending, some s, none, some taskId⟩) :: tasks) := by
      unfold resumeTask
      rw [hfound]
      simp [hyes, hthread, hspec]
    refine ⟨_, hres, ?_, ?_⟩
    · simp [List.lookup]
    · have hb : (taskId == newId) = false := beq_eq_false_iff_ne.mpr hne
      simp [List.lookup, hb]
      exact hfound

/-- C9 witness: resuming a STOPPED task under a fresh id. -/
theorem resume_task_contract_witness :
    ([("t1", ⟨"t1", some "th-1", .stopped, some "do the refactor", none, none⟩)].lookup "t1" =
        some (⟨"t1", some "th-1", .stopped, some "do the refactor", none, none⟩ : TaskRecord) ∧
      ("t2" : String) ≠ "t1") ∧
    ((¬((⟨"t1", some "th-1", .stopped, some "do the refactor", none, none⟩ : TaskRecord).status = .stopped ∨
        (⟨"t1", some "th-1", .stopped, some "do the refactor", none, none⟩ : TaskRecord).status = .failed) →
      resumeTask [("t1", ⟨"t1", some "th-1", .stopped, some "do the refactor", none, none⟩)] "t1" "t2" = .error 400) ∧
    (((⟨"t1", some "th-1", .stopped, some "do the refactor", none, none⟩ : TaskRecord).status = .stopped ∨
        (⟨"t1", some "th-1", .stopped, some "do the refactor", none, none⟩ : TaskRecord).status = .failed) →
      ∃ m, resumeTask [("t1", ⟨"t1", some "th-1", .stopped, some "do the refactor", none, none⟩)] "t1" "t2" = .ok m ∧
        m.lookup "t2" = some ⟨"t2", some "th-1", .pending, some "do the refactor", none, some "t1"⟩ ∧
        m.lookup "t1" = some ⟨"t1", some "th-1", .stopped, some "do the refactor", none, none⟩)) :=
  ⟨⟨by decide, by decide⟩,
   resume_task_contract [("t1", ⟨"t1", some "th-1", .stopped, some "do the refactor", none, none⟩)]
     "t1" "t2" ⟨"t1", some "th-1", .stopped, some "do the refactor", none, none⟩ "th-1"
     "do the refactor" (by decide) rfl rfl (by decide)⟩

/-- C5 (counterexample): "main\n" contains the newline from the dangerous
character list, yet `_sanitize_branch_name` returns it unchanged — the
regex's `$` anchor matches just before a single trailing newline — and
`clone_repository` then reaches the subprocess boundary with it. -/
theorem branch_sanitizer_accepts_trailing_newline :
    ('\n' ∈ dangerousShellChars ∧ '\n' ∈ "main\n".data) ∧
    sanitizeBranchName "main\n" = .ok "main\n" ∧
    cloneRepository "https://github.com/u/r.git" "main\n" "/workspace/repo" =
      .ok [ContainerCmd.cleanupDir "/workspace/repo",
           ContainerCmd.gitClone "main\n" "https://github.com/u/r.git" "/workspace/repo"] := by
  exact ⟨⟨by decide, by decide⟩, by decide, by decide⟩

/-- Dangerous shell characters are outside the branch character class. -/
theorem dangerous_not_branchSafe :
    ∀ c ∈ dangerousShellChars, branchSafeChar c = false := by decide

/-- Helper: an element of a list is in its `dropLast` or is its last
element. -/
theorem mem_dropLast_or_getLast {α : Type} {l : List α} {a x : α}
    (hl : l.getLast? = some a) (hx : x ∈ l) : x ∈ l.dropLast ∨ x = a := by
  induction l with
  | nil => cases hx
  | cons b tl ih =>
    cases tl with
    | nil =>
      simp only [List.getLast?_singleton, Option.some.injEq] at hl
      simp only [List.mem_singleton] at hx
      exact Or.inr (hx.trans hl)
    | cons c tl' =>
      rw [List.getLast?_cons_cons] at hl
      rcases List.mem_cons.mp hx with rfl | hx'
      · exact Or.inl (by simp [List.dropLast_cons₂])
      · rcases ih hl hx' with h | h
        · exact Or.inl (by simp [List.dropLast_cons₂, h])
        · exact Or.inr h

/-- C5 amended: every string containing a dangerous shell character is
rejected by `_sanitize_git_url`, and `clone_repository` given it as URL
errors before constructing any command; `_sanitize_branch_name` also
rejects it unless the string's only dangerous content is a single trailing
newline after otherwise branch-safe characters (which the regex's `$`
anchor admits); and `clone_repository` constructs its commands only after
both sanitizers accept. -/
theorem sanitizers_block_shell_metacharacters (s : String) (c : Char)
    (hc : c ∈ dangerousShellChars) (hs : c ∈ s.data) :
    (∃ e, sanitizeGitUrl s = .error e) ∧
    (∀ b tdir, ∃ e, cloneRepository s b tdir = .error e) ∧
    ((∃ e, sanitizeBranchName s = .error e) ∨
      (c = '\n' ∧ s.data.getLast? = some '\n' ∧ s.data.dropLast.all branchSafeChar = true)) ∧
    (∀ u b tdir cmds, cloneRepository u b tdir = .ok cmds →
      (∃ su, sanitizeGitUrl u = .ok su) ∧ (∃ sb, sanitizeBranchName b = .ok sb)) := by
  have hmem : s.data.contains c = true := by
    simpa using hs
  have hany : dangerousShellChars.any (fun ch => s.data.contains ch) = true := by
    rw [List.any_eq_true]
    exact ⟨c, hc, hmem⟩
  have hgit : ∃ e, sanitizeGitUrl s = .error e := by
    unfold sanitizeGitUrl
    by_cases h1 : (s == "") = true
    · rw [if_pos h1]
      exact ⟨_, rfl⟩
    · rw [if_neg h1]
      by_cases h2 : (!matchesGitUrlPattern s) = true
      · rw [if_pos h2]
        exact ⟨_, rfl⟩
      · rw [if_neg h2, if_pos hany]
        exact ⟨_, rfl⟩
  have hsne : s ≠ "" := by
    rintro rfl
    simp at hs
  refine ⟨hgit, ?_, ?_, ?_⟩
  · intro b tdir
    obtain ⟨e, he⟩ := hgit
    refine ⟨e, ?_⟩
    unfold cloneRepository
    rw [he]
  · by_cases hreg : pyClassPlusDollar branchSafeChar s.data = true
    · have hreg2 : (¬s.data = [] ∧ ∀ x ∈ s.data, branchSafeChar x = true) ∨
          (match s.data.getLast? with
            | some ch => ch == '\n' && !s.data.dropLast.isEmpty &&
                s.data.dropLast.all branchSafeChar
            | none => false) = true := by
        simpa [pyClassPlusDollar] using hreg
      rcases hreg2 with ⟨_, hall⟩ | hlastcase
      · exfalso
        have hcb := hall c hs
        rw [dangerous_not_branchSafe c hc] at hcb
        exact Bool.false_ne_true hcb
      · cases hl : s.data.getLast? with
        | none =>
          rw [hl] at hlastcase
          simp at hlastcase
        | some last =>
          rw [hl] at hlastcase
          simp only [Bool.and_eq_true, beq_iff_eq] at hlastcase
          have hlastn : last = '\n' := hlastcase.1.1
          subst hlastn
          rcases mem_dropLast_or_getLast hl hs with hdl | rfl
          · exfalso
            have hcb := (List.all_eq_true.mp hlastcase.2) c hdl
            rw [dangerous_not_branchSafe c hc] at hcb
            exact Bool.false_ne_true hcb
          · exact Or.inr ⟨rfl, rfl, hlastcase.2⟩
    · refine Or.inl ⟨"invalid branch name", ?_⟩
      unfold sanitizeBranchName
      rw [if_neg (by simpa using hsne), if_pos (by simpa using hreg)]
  · intro u b tdir cmds h
    unfold cloneRepository at h
    cases hu : sanitizeGitUrl u with
    | error e =>
      rw [hu] at h
      simp at h
    | ok su =>
      rw [hu] at h
      cases hb : sanitizeBranchName b with
      | error e =>
        rw [hb] at h
        simp at h
      | ok sb => exact ⟨⟨su, rfl⟩, ⟨sb, rfl⟩⟩

/-- C5 amended, witness at the concrete string "a;b". -/
theorem sanitizers_block_shell_metacharacters_witness :
    (';' ∈ dangerousShellChars ∧ ';' ∈ "a;b".data) ∧
    ((∃ e, sanitizeGitUrl "a;b" = .error e) ∧
    (∀ b tdir, ∃ e, cloneRepository "a;b" b tdir = .error e) ∧
    ((∃ e, sanitizeBranchName "a;b" = .error e) ∨
      (';' = '\n' ∧ "a;b".data.getLast? = some '\n' ∧
        "a;b".data.dropLast.all branchSafeChar = true)) ∧
    (∀ u b tdir cmds, cloneRepository u b tdir = .ok cmds →
      (∃ su, sanitizeGitUrl u = .ok su) ∧ (∃ sb, sanitizeBranchName b = .ok sb))) :=
  ⟨⟨by decide, by decide⟩,
   sanitizers_block_shell_metacharacters "a;b" ';' (by decide) (by decide)⟩

/-- C4: past the guard, any exception in a provisioning step makes
`provision_project` persist FAILED with `last_error` = the exception
message and re-raise it; when the failure came after the container had
been created, that container is in the best-effort-removed list; and a
call that returns normally leaves the record READY with a container id
(and returns exactly the persisted record). -/
theorem provision_failure_cleanup (r : ProjectRec) (env : ProvisionEnv)
    (hguard : r.status = .created ∨ r.status = .stopped ∨ r.status = .failed) :
    (∀ msg, (provisionProject r env).outcome = .error msg →
      (provisionProject r env).db.status = .failed ∧
      (provisionProject r env).db.last_error = some msg) ∧
    (∀ cid msg, env.prepareDirs = none → env.createContainer = .ok cid →
      (provisionProject r env).outcome = .error msg →
      cid ∈ (provisionProject r env).removed) ∧
    (∀ r2, (provisionProject r env).outcome = .ok r2 →
      (provisionProject r env).db.status = .ready ∧
      (provisionProject r env).db.container_id ≠ none ∧
      r2 = (provisionProject r env).db) := by
  have hg : ¬¬(r.status = .created ∨ r.status = .stopped ∨ r.status = .failed) :=
    not_not_intro hguard
  rcases env with ⟨pd, cc, sc, ss⟩
  refine ⟨?_, ?_, ?_⟩ <;>
    cases pd <;> cases cc <;> cases sc <;> cases ss <;>
      simp_all [provisionProject, provisionFailPath, updateProjectStatus, if_neg hg]

/-- C4 witness: a provision whose start step fails after the container was
created. -/
theorem provision_failure_cleanup_witness :
    ((⟨.created, none, none⟩ : ProjectRec).status = .created ∨
      (⟨.created, none, none⟩ : ProjectRec).status = .stopped ∨
      (⟨.created, none, none⟩ : ProjectRec).status = .failed) ∧
    ((∀ msg, (provisionProject ⟨.created, none, none⟩ ⟨none, .ok "c1", some "boom", none⟩).outcome = .error msg →
      (provisionProject ⟨.created, none, none⟩ ⟨none, .ok "c1", some "boom", none⟩).db.status = .failed ∧
      (provisionProject ⟨.created, none, none⟩ ⟨none, .ok "c1", some "boom", none⟩).db.last_error = some msg) ∧
    (∀ cid msg, (⟨none, .ok "c1", some "boom", none⟩ : ProvisionEnv).prepareDirs = none →
      (⟨none, .ok "c1", some "boom", none⟩ : ProvisionEnv).createContainer = .ok cid →
      (provisionProject ⟨.created, none, none⟩ ⟨none, .ok "c1", some "boom", none⟩).outcome = .error msg →
      cid ∈ (provisionProject ⟨.created, none, none⟩ ⟨none, .ok "c1", some "boom", none⟩).removed) ∧
    (∀ r2, (provisionProject ⟨.created, none, none⟩ ⟨none, .ok "c1", some "boom", none⟩).outcome = .ok r2 →
      (provisionProject ⟨.created, none, none⟩ ⟨none, .ok "c1", some "boom", none⟩).db.status = .ready ∧
      (provisionProject ⟨.created, none, none⟩ ⟨none, .ok "c1", some "boom", none⟩).db.container_id ≠ none ∧
      r2 = (provisionProject ⟨.created, none, none⟩ ⟨none, .ok "c1", some "boom", none⟩).db)) :=
  ⟨Or.inl rfl,
   provision_failure_cleanup ⟨.created, none, none⟩ ⟨none, .ok "c1", some "boom", none⟩ (Or.inl rfl)⟩

/-- Status set named by the original C1 claim. -/
def claimedContainerStatuses (s : ProjStatus) : Prop :=
  s = .ready ∨ s = .running ∨ s = .stopped ∨ s = .failed

/-- C1 (counterexample): after provision → stop, re-provisioning writes
PROVISIONING while the stale container id is still persisted, so a
reachable record has a non-null container id with a status outside
READY/RUNNING/STOPPED/FAILED. -/
theorem provisioning_with_container_reachable :
    Reach (.present ⟨.provisioning, some "c1", none⟩) ∧
    (⟨.provisioning, some "c1", none⟩ : ProjectRec).container_id ≠ none ∧
    ¬claimedContainerStatuses (⟨.provisioning, some "c1", none⟩ : ProjectRec).status := by
  refine ⟨?_, by simp, by simp [claimedContainerStatuses]⟩
  have h0 : Reach (.present ⟨.created, none, none⟩) := .create .init
  have h1 : Reach (.present ⟨.provisioning, none, none⟩) :=
    Reach.provisionStart ⟨.created, none, none⟩ h0 (Or.inl rfl)
  have h2 : Reach (.present ⟨.ready, some "c1", none⟩) :=
    Reach.provisionReady ⟨.provisioning, none, none⟩ "c1" h1 rfl
  have h3 : Reach (.present ⟨.stopped, some "c1", none⟩) :=
    Reach.stopOk ⟨.ready, some "c1", none⟩ h2 (by simp)
  exact Reach.provisionStart ⟨.stopped, some "c1", none⟩ h3 (Or.inr (Or.inl rfl))

/-- Inductive strengthening of the container-id/status invariant. -/
def containerInv : PState → Prop
  | .absent => True
  | .present r => r.container_id ≠ none →
      (r.status = .ready ∨ r.status = .stopped ∨ r.status = .failed ∨
       r.status = .provisioning)

/-- Every reachable state satisfies the strengthened invariant. -/
theorem reach_containerInv (st : PState) (h : Reach st) : containerInv st := by
  induction h with
  | init => trivial
  | create _ _ => intro hc; simp at hc
  | provisionStart r _ hg ih =>
    intro _
    simp [updateProjectStatus]
  | provisionReady r cid _ hp ih =>
    intro _
    simp [updateProjectStatus]
  | provisionFail r msg _ hp ih =>
    intro _
    simp [updateProjectStatus]
  | stopOk r _ hc ih =>
    intro _
    simp [updateProjectStatus]
  | stopFail r msg _ hc ih =>
    intro _
    simp [updateProjectStatus]
  | deleteProject r _ _ => trivial

/-- C1 amended: every reachable record with a non-null container id has
status in READY/RUNNING/STOPPED/FAILED/PROVISIONING — in particular never
CREATED.  PROVISIONING must be admitted because re-provisioning from
STOPPED/FAILED keeps the stale container id while it writes PROVISIONING. -/
theorem container_id_status_invariant (r : ProjectRec)
    (h : Reach (.present r)) (hc : r.container_id ≠ none) :
    r.status ≠ .created ∧
    (claimedContainerStatuses r.status ∨ r.status = .provisioning) := by
  have hinv := reach_containerInv _ h hc
  rcases hinv with h1 | h1 | h1 | h1 <;>
    simp [h1, claimedContainerStatuses]

/-- C1 amended, witness at a READY record reached by a plain provision. -/
theorem container_id_status_invariant_witness :
    (⟨.ready, some "c1", none⟩ : ProjectRec).container_id ≠ none ∧
    ((⟨.ready, some "c1", none⟩ : ProjectRec).status ≠ .created ∧
      (claimedContainerStatuses (⟨.ready, some "c1", none⟩ : ProjectRec).status ∨
        (⟨.ready, some "c1", none⟩ : ProjectRec).status = .provisioning)) :=
  ⟨by simp,
   container_id_status_invariant ⟨.ready, some "c1", none⟩
     (Reach.provisionReady ⟨.provisioning, none, none⟩ "c1"
       (Reach.provisionStart ⟨.created, none, none⟩ (Reach.create Reach.init) (Or.inl rfl)) rfl)
     (by simp)⟩

/-- A log-derived event is never the final status event. -/
theorem isStatusEvt_logEventOf (jm : JsonModel) (e : SLogEntry) :
    isStatusEvt (logEventOf jm e) = false := by
  unfold logEventOf
  dsimp only
  split
  · split <;> rfl
  · rfl

/-- `statusCount` distributes over append. -/
theorem statusCount_append (a b : List SSEEvent) :
    statusCount (a ++ b) = statusCount a + statusCount b := by
  simp [statusCount, List.filter_append]

/-- Log-derived event batches contribute no status event. -/
theorem statusCount_logEvents (jm : JsonModel) (ls : List SLogEntry) :
    statusCount (ls.map (logEventOf jm)) = 0 := by
  induction ls with
  | nil => rfl
  | cons e tl ih =>
    simp only [List.map_cons, statusCount, List.filter_cons, isStatusEvt_logEventOf,
      Bool.false_eq_true, if_false] at ih ⊢
    exact ih

/-- `getLast?` of an append with nonempty right part. -/
theorem getLast?_append_of_ne_nil {α : Type} (a : List α) {b : List α} (hb : b ≠ []) :
    (a ++ b).getLast? = b.getLast? := by
  induction a with
  | nil => rfl
  | cons x tl ih =>
    rw [List.cons_append]
    cases htb : tl ++ b with
    | nil =>
      rcases List.append_eq_nil.mp htb with ⟨_, h2⟩
      exact absurd h2 hb
    | cons y l' =>
      rw [List.getLast?_cons_cons]
      rw [htb] at ih
      exact ih

/-- While every observed status is non-terminal the generator neither
closes the stream nor emits a status event. -/
theorem streamGen_open_while_nonterminal (jm : JsonModel) (polls : List TaskSnap) :
    (∀ snap ∈ polls, isTerminal snap.status = false) → ∀ i : Nat,
    (streamGen jm polls i).2 = false ∧ statusCount (streamGen jm polls i).1 = 0 := by
  induction polls with
  | nil => exact fun _ _ => ⟨rfl, rfl⟩
  | cons s tl ih =>
    intro h i
    have hs : isTerminal s.status = false := h s (List.mem_cons_self s tl)
    have htl := ih (fun x hx => h x (List.mem_cons_of_mem s hx)) s.logs.length
    simp only [streamGen, hs, Bool.false_eq_true, if_false]
    refine ⟨htl.1, ?_⟩
    rw [statusCount_append, statusCount_logEvents, htl.2]

/-- On the first terminal observation the generator emits the single
status event last and closes. -/
theorem streamGen_closes_on_terminal (jm : JsonModel) (pre : List TaskSnap)
    (t : TaskSnap) (post : List TaskSnap) (ht : isTerminal t.status = true) :
    (∀ snap ∈ pre, isTerminal snap.status = false) → ∀ i : Nat,
    (streamGen jm (pre ++ t :: post) i).2 = true ∧
    statusCount (streamGen jm (pre ++ t :: post) i).1 = 1 ∧
    (streamGen jm (pre ++ t :: post) i).1.getLast? =
      some (SSEEvent.statusEvt (String.mk (lowerChars (statusWire t.status)))
        t.finished_at t.error_message) := by
  induction pre with
  | nil =>
    intro _ i
    simp only [List.nil_append, streamGen, ht, if_true]
    refine ⟨trivial, ?_, ?_⟩
    · rw [statusCount_append, statusCount_logEvents]
      rfl
    · exact getLast?_append_of_ne_nil _ (by simp)
  | cons s tl ih =>
    intro hpre i
    have hs : isTerminal s.status = false := hpre s (List.mem_cons_self s tl)
    have htl := ih (fun x hx => hpre x (List.mem_cons_of_mem s hx)) s.logs.length
    simp only [List.cons_append, streamGen, hs, Bool.false_eq_true, if_false,
      List.append_eq]
    refine ⟨htl.1, ?_, ?_⟩
    · rw [statusCount_append, statusCount_logEvents, htl.2.1]
    · have hne : (streamGen jm (tl ++ t :: post) s.logs.length).1 ≠ [] := by
        intro h0
        have hcount := htl.2.1
        rw [h0] at hcount
        simp [statusCount] at hcount
      rw [getLast?_append_of_ne_nil _ hne]
      exact htl.2.2

/-- C3: run against successive observations of the task, the generator
never closes the stream while every observed status is non-terminal (and
emits no status event); as soon as it observes a terminal status it emits
exactly one status event — carrying the lower-cased status, finished_at
and error_message of that observation — as the final event, and closes. -/
theorem stream_status_event_contract (jm : JsonModel) (pre post : List TaskSnap)
    (t : TaskSnap) (hpre : ∀ snap ∈ pre, isTerminal snap.status = false)
    (ht : isTerminal t.status = true) :
    ((streamGen jm pre 0).2 = false ∧ statusCount (streamGen jm pre 0).1 = 0) ∧
    ((streamGen jm (pre ++ t :: post) 0).2 = true ∧
     statusCount (streamGen jm (pre ++ t :: post) 0).1 = 1 ∧
     (streamGen jm (pre ++ t :: post) 0).1.getLast? =
       some (SSEEvent.statusEvt (String.mk (lowerChars (statusWire t.status)))
         t.finished_at t.error_message)) :=
  ⟨streamGen_open_while_nonterminal jm pre hpre 0,
   streamGen_closes_on_terminal jm pre t post ht hpre 0⟩

/-- C3 witness: one pending poll followed by a successful one. -/
theorem stream_status_event_contract_witness :
    ((∀ snap ∈ [(⟨.pending, none, none, []⟩ : TaskSnap)], isTerminal snap.status = false) ∧
      isTerminal (⟨.success, some "T1", none, [⟨"ts", "done"⟩]⟩ : TaskSnap).status = true) ∧
    (((streamGen ⟨fun _ => false, fun s => s⟩ [⟨.pending, none, none, []⟩] 0).2 = false ∧
      statusCount (streamGen ⟨fun _ => false, fun s => s⟩ [⟨.pending, none, none, []⟩] 0).1 = 0) ∧
    ((streamGen ⟨fun _ => false, fun s => s⟩
        ([⟨.pending, none, none, []⟩] ++ (⟨.success, some "T1", none, [⟨"ts", "done"⟩]⟩ : TaskSnap) :: []) 0).2 = true ∧
     statusCount (streamGen ⟨fun _ => false, fun s => s⟩
        ([⟨.pending, none, none, []⟩] ++ (⟨.success, some "T1", none, [⟨"ts", "done"⟩]⟩ : TaskSnap) :: []) 0).1 = 1 ∧
     (streamGen ⟨fun _ => false, fun s => s⟩
        ([⟨.pending, none, none, []⟩] ++ (⟨.success, some "T1", none, [⟨"ts", "done"⟩]⟩ : TaskSnap) :: []) 0).1.getLast? =
       some (SSEEvent.statusEvt
         (String.mk (lowerChars (statusWire (⟨.success, some "T1", none, [⟨"ts", "done"⟩]⟩ : TaskSnap).status)))
         (⟨.success, some "T1", none, [⟨"ts", "done"⟩]⟩ : TaskSnap).finished_at
         (⟨.success, some "T1", none, [⟨"ts", "done"⟩]⟩ : TaskSnap).error_message))) :=
  ⟨⟨by decide, by decide⟩,
   stream_status_event_contract ⟨fun _ => false, fun s => s⟩
     [⟨.pending, none, none, []⟩] [] ⟨.success, some "T1", none, [⟨"ts", "done"⟩]⟩
     (by decide) (by decide)⟩

example : (sanitizeBranchName "feature/x").toOption = some "feature/x" := by decide
example : (sanitizeBranchName "main\n").toOption = some "main\n" := by decide
example : (sanitizeBranchName "main;x").toOption = none := by decide
example : (sanitizeGitUrl "https://github.com/u/r.git").toOption = some "https://github.com/u/r.git" := by decide
example : (sanitizeGitUrl "https://g.com/a\n").isOk = false := by decide
example : (sanitizePath "src/a.txt" "/workspace").toOption = some "/workspace/src/a.txt" := by decide
example : (sanitizePath "a/../b" "/workspace").isOk = false := by decide
example : normpath "/workspace/./x//y" = "/workspace/x/y" := by decide

end Spec2Proof
